import Mathlib

/-!
Verification of the BluePay payments backend (src/main.py, src/schemas.py).

The HTTP layer is FastAPI; each endpoint handler is embedded as a pure Lean
function over an explicit store state.  Mongo documents are association lists
from field names to values (Python dicts preserve insertion order and have
unique keys; the embedding keeps first-match semantics everywhere).  The
document id (`_id`) is kept as the association key of the collection rather
than as a field of the document itself.

The helpers `create_document` and `get_documents` live in `database.py`,
which is not part of src/; they are modelled from the spec's Ledger Store /
Query Service contracts (see their doc comments).
-/

namespace BluePay

/-- Document field values: the payment and customer schemas only store
integers, strings and null (Python `None`). -/
inductive Value where
  | int : Int → Value
  | str : String → Value
  | null : Value
deriving DecidableEq, Repr

/-- A stored document: a Python dict from field names to values. -/
abbrev Doc := List (String × Value)

/-- Dict lookup, `d.get(k)` in Python: first (unique) matching key, `none`
when the key is absent. -/
def getField : Doc → String → Option Value
  | [], _ => none
  | kv :: rest, k => if kv.1 == k then some kv.2 else getField rest k

/-- Dict assignment `d[k] = v`: replaces the value at an existing key in
place, appends the pair when the key is absent. -/
def setField : Doc → String → Value → Doc
  | [], k, v => [(k, v)]
  | kv :: rest, k, v => if kv.1 == k then (k, v) :: rest else kv :: setField rest k v

/-- Request payload of `POST /api/payments`, after FastAPI/pydantic parsing:
the fields of `schemas.Payment` (src/schemas.py:50-59).  `status` defaults to
"authorized" as in the schema. -/
structure Payment where
  amount : Int
  currency : String
  description : Option String
  customer_id : Option String
  status : String := "authorized"
deriving DecidableEq, Repr

/-- The `Literal['authorized','captured','failed']` constraint on
`Payment.status` (src/schemas.py:59). -/
def validStatus (s : String) : Bool :=
  s == "authorized" || s == "captured" || s == "failed"

/-- Pydantic validation of `schemas.Payment`: `amount` is an int with
`ge=1` (line 55), `currency` has `min_length=3, max_length=3` (line 56),
`status` must be one of the three literals (line 59); `description` and
`customer_id` are unconstrained optional strings. -/
def Payment.valid (p : Payment) : Bool :=
  decide (1 ≤ p.amount) && decide (p.currency.length = 3) && validStatus p.status

def optStr : Option String → Value
  | none => Value.null
  | some s => Value.str s

/-- The `payload.model_dump()` of a parsed `Payment` (main.py:109): the dict
of the schema's fields. -/
def Payment.model_dump (p : Payment) : Doc :=
  [("amount", Value.int p.amount),
   ("currency", Value.str p.currency),
   ("description", optStr p.description),
   ("customer_id", optStr p.customer_id),
   ("status", Value.str p.status)]

/-- The database state: the "customer" and "payment" collections, each a
sequence of (object-id, document) pairs in insertion order (Mongo returns
documents of an unindexed find in natural = insertion order, so list order
doubles as creation-time order). -/
structure Store where
  customers : List (String × Doc)
  payments : List (String × Doc)
deriving DecidableEq, Repr

def emptyStore : Store := { customers := [], payments := [] }

/-- First document whose id matches, `db[coll].find_one(\x7b"_id": oid\x7d)`. -/
def findDoc : List (String × Doc) → String → Option Doc
  | [], _ => none
  | kv :: rest, oid => if kv.1 == oid then some kv.2 else findDoc rest oid

def findPayment (s : Store) (oid : String) : Option Doc :=
  findDoc s.payments oid

def findCustomer (s : Store) (oid : String) : Option Doc :=
  findDoc s.customers oid

/-- Error outcomes an endpoint can surface as an HTTP error response. -/
inductive ApiError where
  /-- FastAPI/pydantic request-validation failure (rejected before the
  handler body runs, HTTP 422). -/
  | validationError
  /-- `HTTPException(status_code=400, detail="Invalid payment id")`
  (main.py:125). -/
  | invalidId
  /-- `HTTPException(status_code=404, detail="Payment not found")`
  (main.py:129). -/
  | notFound
  /-- `HTTPException(status_code=500, ...)` (unavailable database or an
  unexpected exception). -/
  | serverError
deriving DecidableEq, Repr

/-- HTTP status code of each error outcome. -/
def statusCode : ApiError → Nat
  | ApiError.validationError => 422
  | ApiError.invalidId => 400
  | ApiError.notFound => 404
  | ApiError.serverError => 500

/-- Modelled from the spec: `create_document` is defined in `database.py`,
which is not under src/ (main.py:8 imports it).  Per the Ledger Store
contract (`put_new(record) -> id, fails with Conflict if id already
exists`) it persists the given record under a fresh generated id and
returns that id; insertion order is creation order.  The fresh id is passed
in as `newId`; theorems that need freshness assume `newId` is not already a
key. -/
def create_document (s : Store) (collection : String) (newId : String) (doc : Doc) : Store :=
  if collection == "customer" then
    { s with customers := s.customers ++ [(newId, doc)] }
  else if collection == "payment" then
    { s with payments := s.payments ++ [(newId, doc)] }
  else
    s

/-- `serialize_doc` (main.py:27-38) copies the document, renames `_id` to
`id` as a string and formats datetime values.  In this embedding the id is
kept as the collection key outside the document and no datetime values
occur, so serialization is the identity on all modelled fields. -/
def serialize_doc (d : Doc) : Doc := d

/-- `authorize_payment` (main.py:106-115), `POST /api/payments`.  FastAPI
validates the payload against `schemas.Payment` before the handler body
runs (validation failure returns 422 with no store access); the handler
dumps the payload, overwrites `status` with "authorized" (line 111) and
inserts the document, returning the new id. -/
def authorize_payment (s : Store) (newId : String) (payload : Payment) :
    Store × Except ApiError String :=
  if payload.valid then
    let data := setField payload.model_dump "status" (Value.str "authorized")
    (create_document s "payment" newId data, Except.ok newId)
  else
    (s, Except.error ApiError.validationError)

/-- `bson.ObjectId(s)` on a string succeeds exactly when `s` is a
24-character hexadecimal string. -/
def isHexChar (c : Char) : Bool :=
  c.isDigit || (97 ≤ c.toNat && c.toNat ≤ 102) || (65 ≤ c.toNat && c.toNat ≤ 70)

def isValidObjectId (s : String) : Bool :=
  s.length == 24 && s.toList.all isHexChar

/-- `update_one(\x7b"_id": oid\x7d, \x7b"$set": \x7b"status": st\x7d\x7d)`
on the payment collection: rewrites the status field of the first document
whose id matches, leaves everything else unchanged. -/
def setStatusInList : List (String × Doc) → String → String → List (String × Doc)
  | [], _, _ => []
  | kv :: rest, oid, st =>
    if kv.1 == oid then (kv.1, setField kv.2 "status" (Value.str st)) :: rest
    else kv :: setStatusInList rest oid st

def update_payment_status (s : Store) (oid : String) (st : String) : Store :=
  { s with payments := setStatusInList s.payments oid st }

/-- `capture_payment` (main.py:118-135), `POST /api/payments/{payment_id}/capture`.
The model assumes the database handle is available (the `db is None` 500
guard at line 120 is the no-database configuration, outside this state
model).  Line 123-125: an id that is not a well-formed ObjectId is rejected
with 400 before any store read.  Line 127-129: a missing document is 404.
Line 130-131: an already captured payment is returned as is, with no write.
Lines 133-135: otherwise the status is set to "captured" (whatever it was
before) and the re-read document is returned.  The final `none` branch is
unreachable (the document was just found and the update never removes it)
and is kept only for totality, as the 500 a `serialize_doc(None)` crash
would produce. -/
def capture_payment (s : Store) (payment_id : String) : Store × Except ApiError Doc :=
  if isValidObjectId payment_id then
    match findPayment s payment_id with
    | none => (s, Except.error ApiError.notFound)
    | some doc =>
      if getField doc "status" = some (Value.str "captured") then
        (s, Except.ok (serialize_doc doc))
      else
        let s2 := update_payment_status s payment_id "captured"
        match findPayment s2 payment_id with
        | some updated => (s2, Except.ok (serialize_doc updated))
        | none => (s2, Except.error ApiError.serverError)
  else
    (s, Except.error ApiError.invalidId)

/-- Modelled from the spec: `get_documents` is defined in `database.py`,
which is not under src/ (main.py:8 imports it).  Per the Query Service
contract (`list_payments(status_filter?, limit, offset) -> ordered sequence
of Payment`, "ordered by creation time ascending; status_filter, if given,
restricts to exact match; limit bounded") it returns the documents of the
collection matching the filter by exact field equality, in creation
(insertion) order, truncated to `limit`.  The payment endpoints only ever
filter on the `status` field, so the filter is at most one field. -/
def get_documents (s : Store) (collection : String) (filt : Option (String × Value))
    (limit : Nat) : List Doc :=
  let docs : List Doc :=
    if collection == "customer" then s.customers.map (fun kv => kv.2)
    else if collection == "payment" then s.payments.map (fun kv => kv.2)
    else []
  let filtered :=
    match filt with
    | none => docs
    | some f => docs.filter (fun d => decide (getField d f.1 = some f.2))
  filtered.take limit

/-- `list_payments` (main.py:138-147), `GET /api/payments`.  The filter is
added only when `status` is truthy (line 142: `if status:`), i.e. present
and non-empty. -/
def list_payments (s : Store) (limit : Nat) (status : Option String) : List Doc :=
  let filt : Option (String × Value) :=
    match status with
    | some st => if st == "" then none else some ("status", Value.str st)
    | none => none
  (get_documents s "payment" filt limit).map serialize_doc

/-! Helper lemmas about the document and collection operations. -/

theorem getField_setField_same (d : Doc) (k : String) (v : Value) :
    getField (setField d k v) k = some v := by
  induction d with
  | nil => simp [setField, getField]
  | cons kv rest ih =>
    by_cases hk : kv.1 == k
    · simp [setField, getField, hk]
    · simp [setField, getField, hk, ih]

theorem getField_setField_other (d : Doc) (k k2 : String) (v : Value) (hne : k2 ≠ k) :
    getField (setField d k v) k2 = getField d k2 := by
  have hne2 : ¬(k = k2) := fun h => hne h.symm
  induction d with
  | nil => simp [setField, getField, hne2]
  | cons kv rest ih =>
    by_cases hk : kv.1 == k
    · have hkk : kv.1 = k := by simpa using hk
      simp [setField, getField, hk, hkk, hne2]
    · simp [setField, getField, hk, ih]

theorem findDoc_append_fresh (l : List (String × Doc)) (nid : String) (d : Doc)
    (h : findDoc l nid = none) :
    findDoc (l ++ [(nid, d)]) nid = some d := by
  induction l with
  | nil => simp [findDoc]
  | cons kv rest ih =>
    by_cases hk : kv.1 == nid
    · simp [findDoc, hk] at h
    · simp [findDoc, hk] at h ⊢
      exact ih h

theorem findDoc_setStatusInList (l : List (String × Doc)) (oid : String) (st : String)
    (doc : Doc) (h : findDoc l oid = some doc) :
    findDoc (setStatusInList l oid st) oid = some (setField doc "status" (Value.str st)) := by
  induction l with
  | nil => simp [findDoc] at h
  | cons kv rest ih =>
    by_cases hk : kv.1 == oid
    · simp [findDoc, hk] at h
      simp [setStatusInList, findDoc, hk, h]
    · simp [findDoc, setStatusInList, hk] at h ⊢
      exact ih h

theorem findPayment_create_fresh (s : Store) (nid : String) (d : Doc)
    (h : findPayment s nid = none) :
    findPayment (create_document s "payment" nid d) nid = some d := by
  have hc : create_document s "payment" nid d = { s with payments := s.payments ++ [(nid, d)] } := rfl
  rw [findPayment, hc]
  exact findDoc_append_fresh s.payments nid d h

theorem map_serialize (l : List Doc) : l.map serialize_doc = l := by
  induction l with
  | nil => rfl
  | cons d rest ih => simp [serialize_doc, ih]

/-! Concrete fixtures used by witnesses and counterexamples. -/

def oidA : String := "0123456789abcdef01234567"

def oidB : String := "89abcdef0123456789abcdef"

def oidC : String := "aaaaaaaaaaaaaaaaaaaaaaaa"

def oidD : String := "bbbbbbbbbbbbbbbbbbbbbbbb"

def oidF : String := "fedcba9876543210fedcba98"

def badId : String := "not-a-valid-object-id"

def capturedDoc : Doc :=
  [("amount", Value.int 1000), ("currency", Value.str "USD"),
   ("description", Value.null), ("customer_id", Value.null),
   ("status", Value.str "captured")]

def failedDoc : Doc :=
  [("amount", Value.int 700), ("currency", Value.str "USD"),
   ("description", Value.null), ("customer_id", Value.null),
   ("status", Value.str "failed")]

def capturedStore : Store := { customers := [], payments := [(oidA, capturedDoc)] }

def failedStore : Store := { customers := [], payments := [(oidF, failedDoc)] }

def capturedAfterFail : Doc := setField failedDoc "status" (Value.str "captured")

/-! Claim theorems. -/

/-- Claim C1: CapturePayment is idempotent on the captured terminal state —
for every stored payment whose current status is "captured", capture on its
id returns the existing record (status "captured") without an error and
without changing the store, so a second capture after a successful capture
again returns a record with status "captured". -/
theorem capture_already_captured_returns_record (s : Store) (pid : String) (doc : Doc)
    (hid : isValidObjectId pid = true)
    (hfind : findPayment s pid = some doc)
    (hst : getField doc "status" = some (Value.str "captured")) :
    capture_payment s pid = (s, Except.ok doc) := by
  unfold capture_payment
  simp [hid, hfind, hst, serialize_doc]

/-- Witness for C1: the concrete store holding one captured payment. -/
theorem capture_already_captured_returns_record_witness :
    capture_payment capturedStore oidA = (capturedStore, Except.ok capturedDoc) :=
  capture_already_captured_returns_record capturedStore oidA capturedDoc (by decide) rfl rfl

/-- Claim C9: capturing an already-captured payment writes nothing — the
store (hence the stored record with all its fields) is unchanged and the
record is still found intact afterwards. -/
theorem capture_captured_leaves_store_unchanged (s : Store) (pid : String) (doc : Doc)
    (hid : isValidObjectId pid = true)
    (hfind : findPayment s pid = some doc)
    (hst : getField doc "status" = some (Value.str "captured")) :
    (capture_payment s pid).1 = s ∧ findPayment (capture_payment s pid).1 pid = some doc := by
  have h1 : (capture_payment s pid).1 = s := by
    unfold capture_payment
    simp [hid, hfind, hst]
  exact ⟨h1, by rw [h1]; exact hfind⟩

/-- Witness for C9 at the concrete captured-payment store. -/
theorem capture_captured_leaves_store_unchanged_witness :
    (capture_payment capturedStore oidA).1 = capturedStore ∧
    findPayment (capture_payment capturedStore oidA).1 oidA = some capturedDoc :=
  capture_captured_leaves_store_unchanged capturedStore oidA capturedDoc (by decide) rfl rfl

/-- Claim C2 counterexample: on a stored payment whose status is "failed",
capture_payment does not fail with any error — it succeeds, overwrites the
stored status with "captured" and returns the updated record, refuting
"fails with InvalidTransition (the payment is in a terminal state and is
not moved to captured)". -/
theorem capture_failed_payment_succeeds_counterexample :
    getField failedDoc "status" = some (Value.str "failed") ∧
    (capture_payment failedStore oidF).2 = Except.ok capturedAfterFail ∧
    getField capturedAfterFail "status" = some (Value.str "captured") ∧
    findPayment (capture_payment failedStore oidF).1 oidF = some capturedAfterFail :=
  ⟨rfl, rfl, rfl, rfl⟩

/-- Claim C2 amended: for every stored payment whose current status is
"failed" (under a well-formed id), capture_payment succeeds, sets the
stored status to "captured" and returns the updated record; no
InvalidTransition error exists in the code. -/
theorem capture_failed_payment_transitions_to_captured (s : Store) (pid : String) (doc : Doc)
    (hid : isValidObjectId pid = true)
    (hfind : findPayment s pid = some doc)
    (hst : getField doc "status" = some (Value.str "failed")) :
    capture_payment s pid =
      (update_payment_status s pid "captured",
       Except.ok (setField doc "status" (Value.str "captured"))) := by
  have hne : ¬(getField doc "status" = some (Value.str "captured")) := by
    rw [hst]; decide
  have hupd : findPayment (update_payment_status s pid "captured") pid =
      some (setField doc "status" (Value.str "captured")) := by
    unfold findPayment update_payment_status
    exact findDoc_setStatusInList s.payments pid "captured" doc hfind
  unfold capture_payment
  simp [hid, hfind, hne, hupd, serialize_doc]

/-- Witness for the amended C2 at the concrete failed-payment store. -/
theorem capture_failed_payment_transitions_to_captured_witness :
    capture_payment failedStore oidF =
      (update_payment_status failedStore oidF "captured",
       Except.ok (setField failedDoc "status" (Value.str "captured"))) :=
  capture_failed_payment_transitions_to_captured failedStore oidF failedDoc (by decide) rfl rfl

/-- Claim C10: a payment_id that is not a well-formed ObjectId is rejected
with the 400 invalid-id error, independently of (so before) any store read,
and a well-formed id with no stored payment yields the 404 NotFound
error. -/
theorem capture_invalid_or_missing_id_errors (s : Store) (pid : String) :
    (isValidObjectId pid = false →
      capture_payment s pid = (s, Except.error ApiError.invalidId) ∧
      statusCode ApiError.invalidId = 400) ∧
    (isValidObjectId pid = true → findPayment s pid = none →
      capture_payment s pid = (s, Except.error ApiError.notFound) ∧
      statusCode ApiError.notFound = 404) := by
  constructor
  · intro h
    refine ⟨?_, rfl⟩
    unfold capture_payment
    simp [h]
  · intro h hf
    refine ⟨?_, rfl⟩
    unfold capture_payment
    simp [h, hf]

/-- Witness for C10: a malformed id on the empty store and a well-formed
but absent id on the empty store. -/
theorem capture_invalid_or_missing_id_errors_witness :
    capture_payment emptyStore badId = (emptyStore, Except.error ApiError.invalidId) ∧
    capture_payment emptyStore oidA = (emptyStore, Except.error ApiError.notFound) :=
  ⟨((capture_invalid_or_missing_id_errors emptyStore badId).1 (by decide)).1,
   ((capture_invalid_or_missing_id_errors emptyStore oidA).2 (by decide) rfl).1⟩

def payUSD1000 : Payment :=
  { amount := 1000, currency := "USD", description := none, customer_id := none }

def storedUSD1000 : Doc := setField payUSD1000.model_dump "status" (Value.str "authorized")

def payUsdLower : Payment :=
  { amount := 1000, currency := "usd", description := none, customer_id := none }

def storedUsdLower : Doc := setField payUsdLower.model_dump "status" (Value.str "authorized")

def payNoCustomer : Payment :=
  { amount := 500, currency := "USD", description := none, customer_id := some "nonexistent" }

def storedNoCustomer : Doc := setField payNoCustomer.model_dump "status" (Value.str "authorized")

def payZero : Payment :=
  { amount := 0, currency := "USD", description := none, customer_id := none }

def payStatusCaptured : Payment :=
  { amount := 250, currency := "EUR", description := none, customer_id := none,
    status := "captured" }

/-- Claim C3 counterexample: at the concrete valid input (amount 1000 ≥ 1,
currency "USD" of 3 letters) authorize_payment succeeds and the created
record has status "authorized", but it has no "version" field at all, so
"a version field equal to 0" is false. -/
theorem authorize_stores_no_version_counterexample :
    (authorize_payment emptyStore oidA payUSD1000).2 = Except.ok oidA ∧
    findPayment (authorize_payment emptyStore oidA payUSD1000).1 oidA = some storedUSD1000 ∧
    getField storedUSD1000 "status" = some (Value.str "authorized") ∧
    getField storedUSD1000 "version" = none :=
  ⟨rfl, rfl, rfl, rfl⟩

/-- Claim C3 amended: for every input with amount ≥ 1 and a 3-letter
currency, AuthorizePayment succeeds and the created record has status
"authorized"; the record carries no version field (the code has no
versioning). -/
theorem authorize_valid_input_authorized_no_version (s : Store) (newId : String) (p : Payment)
    (ha : 1 ≤ p.amount) (hc : p.currency.length = 3) (hs : p.status = "authorized")
    (hfresh : findPayment s newId = none) :
    (authorize_payment s newId p).2 = Except.ok newId ∧
    findPayment (authorize_payment s newId p).1 newId =
      some (setField p.model_dump "status" (Value.str "authorized")) ∧
    getField (setField p.model_dump "status" (Value.str "authorized")) "status" =
      some (Value.str "authorized") ∧
    getField (setField p.model_dump "status" (Value.str "authorized")) "version" = none := by
  have hv : p.valid = true := by
    simp [Payment.valid, validStatus, ha, hc, hs]
  have heq : authorize_payment s newId p =
      (create_document s "payment" newId (setField p.model_dump "status" (Value.str "authorized")),
       Except.ok newId) := by
    unfold authorize_payment
    simp [hv]
  refine ⟨by rw [heq], ?_, rfl, rfl⟩
  rw [heq]
  exact findPayment_create_fresh s newId _ hfresh

/-- Witness for the amended C3 at amount 1000, currency "USD". -/
theorem authorize_valid_input_authorized_no_version_witness :
    (authorize_payment emptyStore oidA payUSD1000).2 = Except.ok oidA ∧
    findPayment (authorize_payment emptyStore oidA payUSD1000).1 oidA =
      some (setField payUSD1000.model_dump "status" (Value.str "authorized")) ∧
    getField (setField payUSD1000.model_dump "status" (Value.str "authorized")) "status" =
      some (Value.str "authorized") ∧
    getField (setField payUSD1000.model_dump "status" (Value.str "authorized")) "version" = none :=
  authorize_valid_input_authorized_no_version emptyStore oidA payUSD1000 (by decide) rfl rfl rfl

/-- Claim C4 counterexample: authorizing with currency "usd" stores
currency "usd", not "USD" — the code performs no uppercase
normalization. -/
theorem authorize_currency_kept_lowercase_counterexample :
    (authorize_payment emptyStore oidB payUsdLower).2 = Except.ok oidB ∧
    findPayment (authorize_payment emptyStore oidB payUsdLower).1 oidB = some storedUsdLower ∧
    getField storedUsdLower "currency" = some (Value.str "usd") ∧
    Value.str "usd" ≠ Value.str "USD" :=
  ⟨rfl, rfl, rfl, by decide⟩

/-- Claim C4 amended: AuthorizePayment stores the currency exactly as
given, with no case normalization: the stored currency equals the input
currency verbatim. -/
theorem authorize_currency_stored_verbatim (s : Store) (newId : String) (p : Payment)
    (hv : p.valid = true) (hfresh : findPayment s newId = none) :
    findPayment (authorize_payment s newId p).1 newId =
      some (setField p.model_dump "status" (Value.str "authorized")) ∧
    getField (setField p.model_dump "status" (Value.str "authorized")) "currency" =
      some (Value.str p.currency) := by
  have heq : authorize_payment s newId p =
      (create_document s "payment" newId (setField p.model_dump "status" (Value.str "authorized")),
       Except.ok newId) := by
    unfold authorize_payment
    simp [hv]
  refine ⟨?_, rfl⟩
  rw [heq]
  exact findPayment_create_fresh s newId _ hfresh

/-- Witness for the amended C4: input currency "usd" is stored as "usd". -/
theorem authorize_currency_stored_verbatim_witness :
    findPayment (authorize_payment emptyStore oidB payUsdLower).1 oidB =
      some (setField payUsdLower.model_dump "status" (Value.str "authorized")) ∧
    getField (setField payUsdLower.model_dump "status" (Value.str "authorized")) "currency" =
      some (Value.str "usd") :=
  authorize_currency_stored_verbatim emptyStore oidB payUsdLower (by decide) rfl

/-- Claim C5 counterexample: with no customer stored at all,
AuthorizePayment(amount=500, currency="USD", customerId="nonexistent")
succeeds and creates the payment — it does not fail with NotFound. -/
theorem authorize_unknown_customer_succeeds_counterexample :
    findCustomer emptyStore "nonexistent" = none ∧
    (authorize_payment emptyStore oidC payNoCustomer).2 = Except.ok oidC ∧
    findPayment (authorize_payment emptyStore oidC payNoCustomer).1 oidC = some storedNoCustomer :=
  ⟨rfl, rfl, rfl⟩

/-- Claim C5 amended: authorize_payment performs no customer existence
check — even when customer_id does not resolve to any stored customer the
operation succeeds and creates the payment carrying that customer_id. -/
theorem authorize_ignores_customer_resolution (s : Store) (newId : String) (p : Payment)
    (cid : String)
    (hcid : p.customer_id = some cid) (hmiss : findCustomer s cid = none)
    (hv : p.valid = true) (hfresh : findPayment s newId = none) :
    (authorize_payment s newId p).2 = Except.ok newId ∧
    findPayment (authorize_payment s newId p).1 newId =
      some (setField p.model_dump "status" (Value.str "authorized")) ∧
    getField (setField p.model_dump "status" (Value.str "authorized")) "customer_id" =
      some (Value.str cid) := by
  have heq : authorize_payment s newId p =
      (create_document s "payment" newId (setField p.model_dump "status" (Value.str "authorized")),
       Except.ok newId) := by
    unfold authorize_payment
    simp [hv]
  have h3 : getField (setField p.model_dump "status" (Value.str "authorized")) "customer_id" =
      some (optStr p.customer_id) := rfl
  rw [hcid] at h3
  refine ⟨by rw [heq], ?_, h3⟩
  rw [heq]
  exact findPayment_create_fresh s newId _ hfresh

/-- Witness for the amended C5 at customerId "nonexistent". -/
theorem authorize_ignores_customer_resolution_witness :
    (authorize_payment emptyStore oidC payNoCustomer).2 = Except.ok oidC ∧
    findPayment (authorize_payment emptyStore oidC payNoCustomer).1 oidC =
      some (setField payNoCustomer.model_dump "status" (Value.str "authorized")) ∧
    getField (setField payNoCustomer.model_dump "status" (Value.str "authorized")) "customer_id" =
      some (Value.str "nonexistent") :=
  authorize_ignores_customer_resolution emptyStore oidC payNoCustomer "nonexistent"
    rfl rfl (by decide) rfl

/-- Claim C7: AuthorizePayment with amount = 0 is rejected by the pydantic
ge=1 constraint with a validation error before the handler body runs; the
store is returned unchanged (for every store), so no payment record is
created. -/
theorem authorize_zero_amount_validation_error (s : Store) (newId : String) (p : Payment)
    (h : p.amount = 0) :
    authorize_payment s newId p = (s, Except.error ApiError.validationError) ∧
    statusCode ApiError.validationError = 422 := by
  have hv : p.valid = false := by
    simp [Payment.valid, h]
  exact ⟨by unfold authorize_payment; simp [hv], rfl⟩

/-- Witness for C7 at the concrete zero-amount payload. -/
theorem authorize_zero_amount_validation_error_witness :
    authorize_payment emptyStore oidA payZero = (emptyStore, Except.error ApiError.validationError) ∧
    statusCode ApiError.validationError = 422 :=
  authorize_zero_amount_validation_error emptyStore oidA payZero rfl

/-- Claim C8: every payment created through authorize_payment is stored
with status "authorized" regardless of the status value carried by the
request payload (line 111 overwrites it unconditionally). -/
theorem authorize_forces_status_authorized (s : Store) (newId : String) (p : Payment)
    (hv : p.valid = true) (hfresh : findPayment s newId = none) :
    findPayment (authorize_payment s newId p).1 newId =
      some (setField p.model_dump "status" (Value.str "authorized")) ∧
    getField (setField p.model_dump "status" (Value.str "authorized")) "status" =
      some (Value.str "authorized") := by
  have heq : authorize_payment s newId p =
      (create_document s "payment" newId (setField p.model_dump "status" (Value.str "authorized")),
       Except.ok newId) := by
    unfold authorize_payment
    simp [hv]
  refine ⟨?_, rfl⟩
  rw [heq]
  exact findPayment_create_fresh s newId _ hfresh

/-- Witness for C8: a payload that explicitly carries status "captured" is
still stored with status "authorized". -/
theorem authorize_forces_status_authorized_witness :
    findPayment (authorize_payment emptyStore oidD payStatusCaptured).1 oidD =
      some (setField payStatusCaptured.model_dump "status" (Value.str "authorized")) ∧
    getField (setField payStatusCaptured.model_dump "status" (Value.str "authorized")) "status" =
      some (Value.str "authorized") :=
  authorize_forces_status_authorized emptyStore oidD payStatusCaptured (by decide) rfl

def mixedStore : Store :=
  { customers := [], payments := [(oidA, capturedDoc), (oidF, failedDoc)] }

/-- Claim C6: for every non-empty status filter, list_payments returns only
payments whose stored status equals the filter exactly, and the result is a
sublist of the stored payment sequence in creation (insertion) order, so
the creation-time ascending order is preserved. -/
theorem list_payments_filter_exact_and_creation_order (s : Store) (st : String) (limit : Nat)
    (hst : st ≠ "") :
    (∀ d ∈ list_payments s limit (some st), getField d "status" = some (Value.str st)) ∧
    (list_payments s limit (some st)).Sublist (s.payments.map (fun kv => kv.2)) := by
  have hbeq : (st == "") = false := by
    simpa using hst
  have heq : list_payments s limit (some st) =
      ((s.payments.map (fun kv => kv.2)).filter
        (fun d => decide (getField d "status" = some (Value.str st)))).take limit := by
    unfold list_payments get_documents
    rw [map_serialize]
    simp [hbeq]
  rw [heq]
  constructor
  · intro d hd
    have hd2 : d ∈ (s.payments.map (fun kv => kv.2)).filter
        (fun d => decide (getField d "status" = some (Value.str st))) :=
      List.take_subset _ _ hd
    exact of_decide_eq_true (List.mem_filter.mp hd2).2
  · exact (List.take_sublist _ _).trans (List.filter_sublist _)

/-- Witness for C6: on a store holding one captured and one failed payment,
the "captured" filter keeps the captured record (shown for the concrete
member) and the output is a creation-ordered sublist of the stored
payments. -/
theorem list_payments_filter_exact_and_creation_order_witness :
    getField capturedDoc "status" = some (Value.str "captured") ∧
    (list_payments mixedStore 50 (some "captured")).Sublist
      (mixedStore.payments.map (fun kv => kv.2)) :=
  ⟨(list_payments_filter_exact_and_creation_order mixedStore "captured" 50 (by decide)).1
      capturedDoc (by decide),
   (list_payments_filter_exact_and_creation_order mixedStore "captured" 50 (by decide)).2⟩

end BluePay
